import Mathlib

/-!
# Telegram traffic bot: the scrape-and-retry routine of `main.go`

A shallow embedding of `fetchWebsiteInfoWithRetry` and `fetchWebsiteInfo`.

Modelling conventions.

* A Go `string` is a Lean `String`.  Every needle passed to `strings.Contains`
  in `main.go` is ASCII, so containment of code points agrees with Go's
  containment of bytes on well-formed UTF-8 text.
* The network and the HTML library (`net/http`, `io`, `soup`) are outside the
  repository.  What they hand back to `fetchWebsiteInfo` is an input of the
  model: `GetOutcome` for the request, `Page` for the answers of the fixed
  `Find` / `FindAll` queries on the parsed document.
* A Go run-time panic (here: reading a field through a nil pointer) is the
  result `Outcome.panicked`.
* `log.Printf` inside `fetchWebsiteInfo` only writes to standard error and is
  not recorded; the evaluation of its arguments is modelled, because it can
  panic.  The retry wrapper records its calls, log lines and sleeps as a list
  of `Event`s.
-/

namespace Bot

/-! ## Results and strings -/

/-- Result of running Go code that may panic. -/
inductive Outcome (α : Type) where
  | returned (a : α)
  | panicked
  deriving DecidableEq, Repr

/-- Go `strings.Contains` on lists of characters: `substr` occurs in `s` as a
contiguous block. -/
def containsChars (s substr : List Char) : Bool :=
  match s with
  | [] => substr.isEmpty
  | c :: cs => substr.isPrefixOf (c :: cs) || containsChars cs substr

/-- Go `strings.Contains(s, substr)`. -/
def Contains (s substr : String) : Bool :=
  containsChars s.data substr.data

/-- Go `strings.HasSuffix(s, suffix)`. -/
def HasSuffix (s suffix : String) : Bool :=
  suffix.data.isSuffixOf s.data

/-! ## `strings.Builder` -/

/-- A `strings.Builder`: the arguments of the `WriteString` calls made so far,
in call order. -/
structure Builder where
  written : List String
  deriving DecidableEq, Repr

/-- The zero value `var sb strings.Builder`. -/
def Builder.empty : Builder := ⟨[]⟩

/-- The method `sb.WriteString(s)`. -/
def Builder.WriteString (sb : Builder) (s : String) : Builder :=
  ⟨sb.written ++ [s]⟩

/-- Concatenation of a list of strings, left to right. -/
def concat : List String → String
  | [] => ""
  | s :: rest => s ++ concat rest

/-- The method `sb.String()`: everything written, concatenated. -/
def Builder.String (sb : Builder) : String :=
  concat sb.written

/-! ## What the network and the HTML library return -/

/-- One `div.wa-competitors-card` of the page, as seen through the three
queries of the loop body.  `none` is a `Find` whose `.Error` is not nil; `some t`
is a successful `Find` whose `.Text()` is `t`. -/
structure Card where
  /-- `div.Find("a", "class", "wa-competitors-card__website-title")` -/
  title : Option String
  /-- `div.Find("p", "class", "wa-competitors-card__website-description")` -/
  descr : Option String
  /-- `div.Find("p", "class", "engagement-list__item-value")` -/
  traff : Option String
  deriving DecidableEq, Repr

/-- The parsed document `doc`, as seen through the queries of
`fetchWebsiteInfo`. -/
structure Page where
  /-- `doc.Find("p", "class", "engagement-list__item-value")` and its `.Text()` -/
  maintraff : Option String
  /-- `doc.Find("div", "class", "wa-overview__description")` and its `.FullText()` -/
  description : Option String
  /-- `doc.FindAll("div", "class", "wa-competitors-card")`, in document order -/
  divs : List Card
  deriving DecidableEq, Repr

/-- An `*http.Response` that is not nil. -/
structure Response where
  StatusCode : Int
  /-- `io.ReadAll(resp.Body)` followed by `soup.HTMLParse`: `none` when
  `io.ReadAll` returns an error. -/
  Body : Option Page
  deriving DecidableEq, Repr

/-- What the HTTP machinery does for one call of `fetchWebsiteInfo`. -/
inductive GetOutcome where
  /-- `http.NewRequest` returns a non-nil error. -/
  | requestError
  /-- `client.Do(req)` returns `(resp, err)`; `resp = none` is the nil pointer,
  `err = none` is the nil error.  On a transport error (timeout, DNS failure,
  refused connection) `net/http` returns a nil response and a non-nil error;
  when following a redirect fails it returns the last response together with
  a non-nil error. -/
  | done (resp : Option Response) (err : Option String)
  deriving DecidableEq, Repr

/-! ## `fetchWebsiteInfo` -/

def errorMessage : String := "An error occurred while processing your request."

def forbiddenMessage : String := "403 Forbidden: Access is denied."

def notFoundMessage : String := "Could not find number of visitors."

/-- Body of `for _, div := range divs` (lines 163-183), folded over the cards. -/
def writeCards (sb : Builder) : List Card → Builder
  | [] => sb
  | div :: rest =>
    match div.title with
    | some title =>
      let sb := sb.WriteString ("Title: " ++ title ++ "\n")
      let sb :=
        match div.descr with
        | some descr => sb.WriteString ("Description: " ++ descr ++ "\n")
        | none => sb.WriteString "Description not found\n"
      let sb :=
        match div.traff with
        | some traff => sb.WriteString ("Traffic: " ++ traff ++ "\n")
        | none => sb.WriteString "Traffic not found\n"
      writeCards (sb.WriteString "\n") rest
    | none => writeCards (sb.WriteString "Title not found\n") rest

/-- Lines 144-184: the builder after all writes, for a document whose visitor
element was found with text `visitors`. -/
def reportBuilder (website visitors : String) (doc : Page) : Builder :=
  let sb := Builder.empty
  let sb := sb.WriteString ("Website: " ++ website ++ "\n")
  let sb := sb.WriteString ("Number of Visitors: " ++ visitors ++ "\n")
  let sb :=
    match doc.description with
    | some description => sb.WriteString ("Description: " ++ description ++ "\n")
    | none => sb.WriteString "Description not found\n"
  match doc.divs with
  | [] => sb.WriteString "\nNo competitors found"
  | div :: rest => writeCards (sb.WriteString "\nCompetitors:\n") (div :: rest)

/-- The function `fetchWebsiteInfo` (lines 105-186), given what the HTTP
machinery does.

With `resp` nil the function panics on either path: if `err` is nil the
condition of line 121 evaluates `resp.StatusCode`; if `err` is not nil the
condition short-circuits to true and the arguments of `log.Printf` on line 122
evaluate `resp.StatusCode`. -/
def fetchWebsiteInfo (website : String) : GetOutcome → Outcome String
  | .requestError => .returned errorMessage
  | .done none _ => .panicked
  | .done (some resp) err =>
    if err.isSome || resp.StatusCode != 200 then
      if resp.StatusCode == 403 then .returned forbiddenMessage
      else .returned errorMessage
    else
      match resp.Body with
      | none => .returned errorMessage
      | some doc =>
        match doc.maintraff with
        | none => .returned notFoundMessage
        | some visitors => .returned (reportBuilder website visitors doc).String

/-! ## `fetchWebsiteInfoWithRetry` -/

/-- Observable steps of the retry wrapper. -/
inductive Event where
  /-- a call `fetchWebsiteInfo(website)` -/
  | fetch (website : String)
  /-- a line written by `log.Printf` -/
  | log (line : String)
  /-- a call `time.Sleep(seconds * time.Second)` -/
  | sleep (seconds : Nat)
  deriving DecidableEq, Repr

/-- A fetch operation: it reads and changes the state `σ` of the outside
world and returns a string, or panics. -/
abbrev Fetch (σ : Type) := String → σ → Outcome String × σ

/-- State threaded through the wrapper: the outside world and the events so
far, oldest first. -/
structure World (σ : Type) where
  net : σ
  events : List Event

/-- The constant `maxRetries` of line 90. -/
def maxRetries : Nat := 3

/-- The line of `log.Printf("Retry %d: Could not fetch the information,
retrying...", n)`. -/
def retryLine (n : Nat) : String :=
  "Retry " ++ toString n ++ ": Could not fetch the information, retrying..."

/-- The loop `for i := 0; i < maxRetries; i++` of lines 93-100, entered with
`maxRetries - i` iterations left (first argument), followed by the `return` of
line 102. -/
def retryLoop {σ : Type} (fetch : Fetch σ) (website : String) :
    Nat → Nat → String → World σ → Outcome String × World σ
  | 0, _, responseMessage, w => (.returned responseMessage, w)
  | left + 1, i, _, w =>
    match fetch website w.net with
    | (.panicked, net) => (.panicked, ⟨net, w.events ++ [.fetch website]⟩)
    | (.returned responseMessage, net) =>
      if !Contains responseMessage "Could not find number of visitors" &&
          !Contains responseMessage "403" then
        (.returned responseMessage, ⟨net, w.events ++ [.fetch website]⟩)
      else
        retryLoop fetch website left (i + 1) responseMessage
          ⟨net, w.events ++ [.fetch website,
            .log (retryLine (i + 1)), .sleep 2]⟩

/-- The function `fetchWebsiteInfoWithRetry` (lines 89-103), with the fetch
operation called on line 94 as a parameter and the outside world starting in
state `net`.  The loop starts at `i = 0` with `responseMessage` the empty
string of `var responseMessage string`. -/
def fetchWebsiteInfoWithRetry {σ : Type} (fetch : Fetch σ) (website : String)
    (net : σ) : Outcome String × World σ :=
  retryLoop fetch website maxRetries 0 "" ⟨net, []⟩

/-- Number of calls of the fetch operation in a trace. -/
def fetchCalls (events : List Event) : Nat :=
  (events.filter fun e => match e with | .fetch _ => true | _ => false).length

/-- Durations, in seconds, of the sleeps in a trace, oldest first. -/
def sleeps : List Event → List Nat
  | [] => []
  | .sleep seconds :: rest => seconds :: sleeps rest
  | _ :: rest => sleeps rest

/-- The outside world as `fetchWebsiteInfo` sees it: the outcome of the HTTP
exchange of the next call, of the one after, and so on. -/
abbrev Network := Nat → GetOutcome

/-- The fetch operation of line 94: `fetchWebsiteInfo` on the next HTTP
exchange. -/
def netFetch : Fetch Network :=
  fun website net => (fetchWebsiteInfo website (net 0), fun n => net (n + 1))

/-! ## Vocabulary of the specification -/

/-- The HTTP exchange of a page that arrives: status 200, no error, a body that
is read and parsed into `doc`. -/
def scrape (doc : Page) : GetOutcome :=
  .done (some ⟨200, some doc⟩) none

/-- Texts that the loop body reads from one card: nothing but the failed title
query when the title is missing. -/
def Card.scraped (div : Card) : List String :=
  match div.title with
  | some title => title :: (div.descr.toList ++ div.traff.toList)
  | none => []

/-- Texts that `fetchWebsiteInfo` reads from the document with `.Text()` or
`.FullText()`. -/
def Page.scraped (doc : Page) : List String :=
  doc.maintraff.toList ++ doc.description.toList ++
    (doc.divs.map Card.scraped).flatten

/-- The strings of the list occur in `s` one after the other, without
overlap. -/
def OccurInOrder : List String → String → Prop
  | [], _ => True
  | x :: xs, s => ∃ a b, s = a ++ x ++ b ∧ OccurInOrder xs b

/-- The requested website contains "403", or a text scraped from the page
contains "403" or "Could not find number of visitors". -/
def Tainted (website : String) (doc : Page) : Prop :=
  Contains website "403" = true ∨
    ∃ t ∈ doc.scraped, Contains t "403" = true ∨
      Contains t "Could not find number of visitors" = true

/-- The text `a` ends where a line starts: it is empty or ends in a
newline. -/
def AtLineStart (a : String) : Prop :=
  a = "" ∨ HasSuffix a "\n" = true

/-- The strings of the list are lines of `s`, one after the other: each
occurrence starts where a line starts and is followed by a newline.  The text
`s` itself is taken to start at the start of a line. -/
def LinesInOrder : List String → String → Prop
  | [], _ => True
  | x :: xs, s =>
    ∃ a b, s = a ++ x ++ "\n" ++ b ∧ AtLineStart a ∧ LinesInOrder xs b

/-- Placeholder lines owed to one card: "Title not found" alone when the title
is missing, else one for a missing description and one for a missing
traffic. -/
def Card.placeholders (div : Card) : List String :=
  match div.title with
  | none => ["Title not found"]
  | some _ =>
    (if div.descr.isNone then ["Description not found"] else []) ++
      (if div.traff.isNone then ["Traffic not found"] else [])

/-- Placeholder lines owed to a page, in document order. -/
def Page.placeholders (doc : Page) : List String :=
  (if doc.description.isNone then ["Description not found"] else []) ++
    (doc.divs.map Card.placeholders).flatten

/-! ## Auxiliary definitions of the proofs -/

/-- The placeholder line that a write consists of, if it is one. -/
def placeholderOf (w : String) : List String :=
  if w = "Description not found\n" then ["Description not found"]
  else if w = "Title not found\n" then ["Title not found"]
  else if w = "Traffic not found\n" then ["Traffic not found"]
  else []


/-- The `WriteString` arguments of one pass through the loop body. -/
def cardWrites (div : Card) : List String :=
  (writeCards Builder.empty [div]).written

/-- The characters `l` do not contain "Title not found". -/
def Free (l : List Char) : Prop :=
  ¬ "Title not found".data <:+: l

/-- The characters `l` do not contain the characters `needle`. -/
def FreeOf (needle l : List Char) : Prop :=
  ¬ needle <:+: l

/-- Writing `w` in front of characters free of `needle` leaves them free of
`needle`. -/
def SafeWrite (needle : List Char) (w : String) : Prop :=
  ∀ rest, FreeOf needle rest → FreeOf needle (w.data ++ rest)

/-- The characters of a list of writes, followed by `rest`. -/
def charsOf (writes : List String) (rest : List Char) : List Char :=
  writes.foldr (fun s acc => s.data ++ acc) rest

/-! ## Example inputs -/

/-- A fetch operation on a one-element world that always answers "ok". -/
def okFetch : Fetch Unit := fun _ s => (.returned "ok", s)

/-- A fetch operation on a call counter: never finds the visitor count, and
words the failure differently on each call. -/
def countingFetch : Fetch Nat := fun _ n =>
  (.returned ("call " ++ toString n ++ ": Could not find number of visitors."),
    n + 1)

/-- A network on which every exchange brings a page without the visitor
element. -/
def neverFound : Network := fun _ => scrape ⟨none, none, []⟩

/-- A network on which every exchange fails in transport: nil response,
non-nil error. -/
def deadNetwork : Network := fun _ =>
  .done none (some "dial tcp: lookup www.similarweb.com: no such host")

/-- A page whose visitor text holds the failure phrase in lower case. -/
def lowerCasePage : Page :=
  ⟨some "could not find number of visitors", none, []⟩

/-- A page with a visitor value and two competitor cards, each with title,
description and traffic. -/
def fixturePage : Page :=
  ⟨some "1.2M", some "An example site.",
    [⟨some "first.example", some "The first competitor.", some "900K"⟩,
     ⟨some "second.example", some "The second competitor.", some "350K"⟩]⟩

/-- A network on which every exchange brings `fixturePage`. -/
def fixtureNetwork : Network := fun _ => scrape fixturePage

/-- A network whose first exchange brings `fixturePage` and whose later
exchanges answer with status 503. -/
def failsAfterFirst : Network
  | 0 => scrape fixturePage
  | _ => .done (some ⟨503, none⟩) none

/-- A page with a visitor value and no competitor cards. -/
def noCardsPage : Page := ⟨some "1.2M", some "An example site.", []⟩

/-- A page with a description and one card in which title, description and
traffic are all missing. -/
def untitledCardPage : Page :=
  ⟨some "1.2M", some "An example site.", [⟨none, none, none⟩]⟩

/-- A page with one card in which title, description and traffic are all
missing, and one card with a title only. -/
def sparsePage : Page :=
  ⟨some "1.2M", none, [⟨none, none, none⟩, ⟨some "second.example", none, none⟩]⟩

/-! ## Strings as lists of characters -/

theorem containsChars_iff (s substr : List Char) :
    containsChars s substr = true ↔ substr <:+: s := by
  induction s with
  | nil => cases substr <;> simp [containsChars]
  | cons c cs ih =>
    rw [containsChars, Bool.or_eq_true, ih, List.infix_cons_iff, List.isPrefixOf_iff_prefix]

theorem Contains_iff (s substr : String) :
    Contains s substr = true ↔ substr.data <:+: s.data :=
  containsChars_iff _ _

theorem Contains_eq_false_iff (s substr : String) :
    Contains s substr = false ↔ ¬ substr.data <:+: s.data := by
  rw [← Contains_iff]; simp

theorem HasSuffix_iff (s suffix : String) :
    HasSuffix s suffix = true ↔ suffix.data <:+ s.data := by
  simp [HasSuffix]

theorem concat_append (l m : List String) :
    concat (l ++ m) = concat l ++ concat m := by
  induction l with
  | nil => simp [concat]
  | cons s rest ih => simp [concat, ih, String.append_assoc]

/-! ## The retry wrapper -/

/-- One iteration of the loop whose result passes the test of line 95. -/
theorem retryLoop_stop {σ : Type} (fetch : Fetch σ) (website : String)
    (left i : Nat) (msg : String) (w : World σ) (r : String) (net1 : σ)
    (hfetch : fetch website w.net = (.returned r, net1))
    (h1 : Contains r "Could not find number of visitors" = false)
    (h2 : Contains r "403" = false) :
    retryLoop fetch website (left + 1) i msg w =
      (.returned r, ⟨net1, w.events ++ [.fetch website]⟩) := by
  simp [retryLoop, hfetch, h1, h2]

/-- One iteration of the loop whose result fails the test of line 95. -/
theorem retryLoop_again {σ : Type} (fetch : Fetch σ) (website : String)
    (left i : Nat) (msg : String) (w : World σ) (r : String) (net1 : σ)
    (hfetch : fetch website w.net = (.returned r, net1))
    (h : Contains r "Could not find number of visitors" = true ∨
      Contains r "403" = true) :
    retryLoop fetch website (left + 1) i msg w =
      retryLoop fetch website left (i + 1) r
        ⟨net1, w.events ++ [.fetch website, .log (retryLine (i + 1)), .sleep 2]⟩ := by
  rcases h with h | h <;> simp [retryLoop, hfetch, h]

/-- One iteration of the loop in which the fetch operation panics. -/
theorem retryLoop_panic {σ : Type} (fetch : Fetch σ) (website : String)
    (left i : Nat) (msg : String) (w : World σ) (net1 : σ)
    (hfetch : fetch website w.net = (.panicked, net1)) :
    retryLoop fetch website (left + 1) i msg w =
      (.panicked, ⟨net1, w.events ++ [.fetch website]⟩) := by
  simp [retryLoop, hfetch]

theorem Contains_of_Contains_of_Contains (s a b : String)
    (hab : Contains a b = true) (hsa : Contains s a = true) :
    Contains s b = true := by
  rw [Contains_iff] at *
  exact hab.trans hsa

theorem fetchCalls_append (l m : List Event) :
    fetchCalls (l ++ m) = fetchCalls l + fetchCalls m := by
  simp [fetchCalls]

theorem retry_first_result_returned_aux {σ : Type} (fetch : Fetch σ)
    (website : String) (net net1 : σ) (r : String)
    (hfetch : fetch website net = (.returned r, net1))
    (h1 : Contains r "Could not find number of visitors" = false)
    (h2 : Contains r "403" = false) :
    fetchWebsiteInfoWithRetry fetch website net =
      (.returned r, ⟨net1, [.fetch website]⟩) := by
  unfold fetchWebsiteInfoWithRetry maxRetries
  rw [retryLoop_stop fetch website 2 0 "" ⟨net, []⟩ r net1 hfetch h1 h2]
  rfl

/-- C1: if the first result of the fetch operation contains neither
"Could not find number of visitors" nor "403", the wrapper returns exactly that
result; its trace is the single fetch call, so the operation was called once
and nothing was slept. -/
theorem retry_first_result_returned {σ : Type} (fetch : Fetch σ)
    (website : String) (net net1 : σ) (r : String)
    (hfetch : fetch website net = (.returned r, net1))
    (h1 : Contains r "Could not find number of visitors" = false)
    (h2 : Contains r "403" = false) :
    fetchWebsiteInfoWithRetry fetch website net =
        (.returned r, ⟨net1, [.fetch website]⟩) ∧
      fetchCalls (fetchWebsiteInfoWithRetry fetch website net).2.events = 1 ∧
      sleeps (fetchWebsiteInfoWithRetry fetch website net).2.events = [] := by
  rw [retry_first_result_returned_aux fetch website net net1 r hfetch h1 h2]
  exact ⟨rfl, rfl, rfl⟩

theorem retry_first_result_returned_witness :
    fetchWebsiteInfoWithRetry okFetch "example.com" () =
        (.returned "ok", ⟨(), [.fetch "example.com"]⟩) ∧
      fetchCalls (fetchWebsiteInfoWithRetry okFetch "example.com" ()).2.events = 1 ∧
      sleeps (fetchWebsiteInfoWithRetry okFetch "example.com" ()).2.events = [] :=
  retry_first_result_returned okFetch "example.com" () () "ok" rfl
    (by decide) (by decide)

/-- C2: if each call the wrapper makes - the first on the starting world, every
later one on the world left by the call before - returns a text containing
"Could not find number of visitors.", the wrapper calls the fetch operation
exactly three times and returns the text of the third call, whatever the three
texts are. -/
theorem retry_always_not_found {σ : Type} (fetch : Fetch σ) (website : String)
    (net s1 s2 s3 : σ) (r1 r2 r3 : String)
    (f1 : fetch website net = (.returned r1, s1))
    (f2 : fetch website s1 = (.returned r2, s2))
    (f3 : fetch website s2 = (.returned r3, s3))
    (c1 : Contains r1 "Could not find number of visitors." = true)
    (c2 : Contains r2 "Could not find number of visitors." = true)
    (c3 : Contains r3 "Could not find number of visitors." = true) :
    fetchWebsiteInfoWithRetry fetch website net =
        (.returned r3, ⟨s3,
          [.fetch website, .log (retryLine 1), .sleep 2,
           .fetch website, .log (retryLine 2), .sleep 2,
           .fetch website, .log (retryLine 3), .sleep 2]⟩) ∧
      fetchCalls (fetchWebsiteInfoWithRetry fetch website net).2.events = 3 := by
  have sub : Contains "Could not find number of visitors."
      "Could not find number of visitors" = true := by decide
  have run : fetchWebsiteInfoWithRetry fetch website net =
      (.returned r3, ⟨s3,
        [.fetch website, .log (retryLine 1), .sleep 2,
         .fetch website, .log (retryLine 2), .sleep 2,
         .fetch website, .log (retryLine 3), .sleep 2]⟩) := by
    unfold fetchWebsiteInfoWithRetry maxRetries
    rw [retryLoop_again fetch website 2 0 "" ⟨net, []⟩ r1 _ f1
        (Or.inl (Contains_of_Contains_of_Contains _ _ _ sub c1)),
      retryLoop_again fetch website 1 1 r1 _ r2 _ f2
        (Or.inl (Contains_of_Contains_of_Contains _ _ _ sub c2)),
      retryLoop_again fetch website 0 2 r2 _ r3 _ f3
        (Or.inl (Contains_of_Contains_of_Contains _ _ _ sub c3))]
    rfl
  rw [run]
  exact ⟨rfl, rfl⟩

theorem Contains_append_of_right (a b c : String) (h : Contains b c = true) :
    Contains (a ++ b) c = true := by
  rw [Contains_iff] at *
  rw [String.data_append]
  exact h.trans (List.suffix_append _ _).isInfix

theorem Contains_append_of_left (a b c : String) (h : Contains a c = true) :
    Contains (a ++ b) c = true := by
  rw [Contains_iff] at *
  rw [String.data_append]
  exact h.trans (List.prefix_append _ _).isInfix

theorem retry_always_not_found_witness :
    (fetchWebsiteInfoWithRetry countingFetch "example.com" 0 =
        (.returned "call 2: Could not find number of visitors.", ⟨3,
          [.fetch "example.com", .log (retryLine 1), .sleep 2,
           .fetch "example.com", .log (retryLine 2), .sleep 2,
           .fetch "example.com", .log (retryLine 3), .sleep 2]⟩) ∧
      fetchCalls (fetchWebsiteInfoWithRetry countingFetch "example.com" 0).2.events
        = 3) ∧
    (fetchWebsiteInfoWithRetry netFetch "example.com" neverFound =
        (.returned "Could not find number of visitors.",
          ⟨fun n => neverFound (n + 1 + 1 + 1),
          [.fetch "example.com", .log (retryLine 1), .sleep 2,
           .fetch "example.com", .log (retryLine 2), .sleep 2,
           .fetch "example.com", .log (retryLine 3), .sleep 2]⟩) ∧
      fetchCalls (fetchWebsiteInfoWithRetry netFetch "example.com"
        neverFound).2.events = 3) :=
  ⟨retry_always_not_found countingFetch "example.com" 0 1 2 3
      "call 0: Could not find number of visitors."
      "call 1: Could not find number of visitors."
      "call 2: Could not find number of visitors."
      (by decide) (by decide) (by decide) (by decide) (by decide) (by decide),
   retry_always_not_found netFetch "example.com" neverFound
      (fun n => neverFound (n + 1)) (fun n => neverFound (n + 1 + 1))
      (fun n => neverFound (n + 1 + 1 + 1))
      "Could not find number of visitors." "Could not find number of visitors."
      "Could not find number of visitors."
      rfl rfl rfl (by decide) (by decide) (by decide)⟩

/-- The last iteration of the loop calls the fetch operation once, whatever it
returns. -/
theorem fetchCalls_last_iteration {σ : Type} (fetch : Fetch σ)
    (website : String) (i : Nat) (msg : String) (w : World σ) :
    fetchCalls (retryLoop fetch website 1 i msg w).2.events =
      fetchCalls w.events + 1 := by
  rcases hf : fetch website w.net with ⟨o, n⟩
  cases o with
  | panicked =>
    rw [retryLoop_panic fetch website 0 i msg w n hf, fetchCalls_append]; rfl
  | returned r =>
    by_cases h : Contains r "Could not find number of visitors" = true ∨
        Contains r "403" = true
    · rw [retryLoop_again fetch website 0 i msg w r n hf h]
      simp only [retryLoop]
      rw [fetchCalls_append]; rfl
    · simp only [not_or, Bool.not_eq_true] at h
      rw [retryLoop_stop fetch website 0 i msg w r n hf h.1 h.2, fetchCalls_append]
      rfl

theorem further_attempt_aux {σ : Type} (fetch : Fetch σ)
    (website : String) (net net1 : σ) (r1 : String)
    (hfetch1 : fetch website net = (.returned r1, net1)) :
    (2 ≤ fetchCalls (fetchWebsiteInfoWithRetry fetch website net).2.events ↔
        (Contains r1 "Could not find number of visitors" = true ∨
          Contains r1 "403" = true)) ∧
      ∀ (r2 : String) (net2 : σ),
        (Contains r1 "Could not find number of visitors" = true ∨
          Contains r1 "403" = true) →
        fetch website net1 = (.returned r2, net2) →
        (3 ≤ fetchCalls (fetchWebsiteInfoWithRetry fetch website net).2.events ↔
          (Contains r2 "Could not find number of visitors" = true ∨
            Contains r2 "403" = true)) := by
  by_cases h1 : Contains r1 "Could not find number of visitors" = true ∨
      Contains r1 "403" = true
  · have step1 : fetchWebsiteInfoWithRetry fetch website net =
        retryLoop fetch website 2 1 r1
          ⟨net1, [.fetch website, .log (retryLine 1), .sleep 2]⟩ := by
      unfold fetchWebsiteInfoWithRetry maxRetries
      rw [retryLoop_again fetch website 2 0 "" ⟨net, []⟩ r1 net1 hfetch1 h1]
      rfl
    refine ⟨⟨fun _ => h1, fun _ => ?_⟩, ?_⟩
    · rw [step1]
      rcases hf : fetch website net1 with ⟨o, n⟩
      cases o with
      | panicked =>
        rw [retryLoop_panic fetch website 1 1 r1 _ n hf]
        simp [fetchCalls]
      | returned r =>
        by_cases h : Contains r "Could not find number of visitors" = true ∨
            Contains r "403" = true
        · rw [retryLoop_again fetch website 1 1 r1 _ r n hf h,
            fetchCalls_last_iteration]
          simp [fetchCalls]
        · simp only [not_or, Bool.not_eq_true] at h
          rw [retryLoop_stop fetch website 1 1 r1 _ r n hf h.1 h.2]
          simp [fetchCalls]
    · intro r2 net2 _ hfetch2
      rw [step1]
      by_cases h2 : Contains r2 "Could not find number of visitors" = true ∨
          Contains r2 "403" = true
      · rw [retryLoop_again fetch website 1 1 r1 _ r2 net2 hfetch2 h2,
          fetchCalls_last_iteration]
        simp [fetchCalls, h2]
      · have h2' := h2
        simp only [not_or, Bool.not_eq_true] at h2'
        rw [retryLoop_stop fetch website 1 1 r1 _ r2 net2 hfetch2 h2'.1 h2'.2]
        simp [fetchCalls, h2]
  · have h1' := h1
    simp only [not_or, Bool.not_eq_true] at h1'
    have run := (retry_first_result_returned_aux fetch website net net1 r1
      hfetch1 h1'.1 h1'.2)
    refine ⟨?_, fun r2 net2 h => absurd h h1⟩
    rw [run]
    simp [fetchCalls, h1]

/-- C3 (amended): a result obtained on attempt 1 or 2 is followed by a further
attempt if and only if it contains "Could not find number of visitors"
(capital C, as `fetchWebsiteInfo` writes it) or "403". -/
theorem retry_further_attempt_iff {σ : Type} (fetch : Fetch σ)
    (website : String) (net net1 : σ) (r1 : String)
    (hfetch1 : fetch website net = (.returned r1, net1)) :
    (2 ≤ fetchCalls (fetchWebsiteInfoWithRetry fetch website net).2.events ↔
        (Contains r1 "Could not find number of visitors" = true ∨
          Contains r1 "403" = true)) ∧
      ∀ (r2 : String) (net2 : σ),
        (Contains r1 "Could not find number of visitors" = true ∨
          Contains r1 "403" = true) →
        fetch website net1 = (.returned r2, net2) →
        (3 ≤ fetchCalls (fetchWebsiteInfoWithRetry fetch website net).2.events ↔
          (Contains r2 "Could not find number of visitors" = true ∨
            Contains r2 "403" = true)) :=
  further_attempt_aux fetch website net net1 r1 hfetch1

theorem retry_further_attempt_iff_witness :
    (2 ≤ fetchCalls (fetchWebsiteInfoWithRetry countingFetch "example.com" 0).2.events ↔
        (Contains "call 0: Could not find number of visitors."
            "Could not find number of visitors" = true ∨
          Contains "call 0: Could not find number of visitors." "403" = true)) ∧
      (3 ≤ fetchCalls (fetchWebsiteInfoWithRetry countingFetch "example.com" 0).2.events ↔
        (Contains "call 1: Could not find number of visitors."
            "Could not find number of visitors" = true ∨
          Contains "call 1: Could not find number of visitors." "403" = true)) :=
  ⟨(retry_further_attempt_iff countingFetch "example.com" 0 1
      "call 0: Could not find number of visitors." (by decide)).1,
   (retry_further_attempt_iff countingFetch "example.com" 0 1
      "call 0: Could not find number of visitors." (by decide)).2
      "call 1: Could not find number of visitors." 2 (Or.inl (by decide))
      (by decide)⟩

/-- C3 (as stated, refuted): the report of `lowerCasePage` contains
"could not find number of visitors" in lower case and no "403", it is obtained
on attempt 1, and the wrapper returns it without a further attempt. -/
theorem retry_lower_case_phrase_not_retried :
    fetchWebsiteInfo "example.com" (scrape lowerCasePage) =
        .returned ("Website: example.com\nNumber of Visitors: " ++
          "could not find number of visitors\nDescription not found\n" ++
          "\nNo competitors found") ∧
      Contains ("Website: example.com\nNumber of Visitors: " ++
          "could not find number of visitors\nDescription not found\n" ++
          "\nNo competitors found") "could not find number of visitors" = true ∧
      Contains ("Website: example.com\nNumber of Visitors: " ++
          "could not find number of visitors\nDescription not found\n" ++
          "\nNo competitors found") "403" = false ∧
      (fetchWebsiteInfoWithRetry netFetch "example.com"
          (fun _ => scrape lowerCasePage)).1 =
        fetchWebsiteInfo "example.com" (scrape lowerCasePage) ∧
      (fetchWebsiteInfoWithRetry netFetch "example.com"
          (fun _ => scrape lowerCasePage)).2.events = [.fetch "example.com"] := by
  decide

/-- C4 (the code at the failing input): when no exchange ever finds the visitor
element the wrapper makes three attempts and sleeps three times, two seconds
each, six seconds in all; the last thing it does before returning is to log
"Retry 3: ... retrying..." and sleep, with no attempt after it. -/
theorem retry_sleeps_after_last_attempt :
    (fetchWebsiteInfoWithRetry netFetch "example.com" neverFound).1 =
        .returned "Could not find number of visitors." ∧
      (fetchWebsiteInfoWithRetry netFetch "example.com" neverFound).2.events =
        [.fetch "example.com",
         .log "Retry 1: Could not fetch the information, retrying...", .sleep 2,
         .fetch "example.com",
         .log "Retry 2: Could not fetch the information, retrying...", .sleep 2,
         .fetch "example.com",
         .log "Retry 3: Could not fetch the information, retrying...", .sleep 2] ∧
      fetchCalls (fetchWebsiteInfoWithRetry netFetch "example.com" neverFound).2.events
        = 3 ∧
      sleeps (fetchWebsiteInfoWithRetry netFetch "example.com" neverFound).2.events
        = [2, 2, 2] ∧
      (sleeps (fetchWebsiteInfoWithRetry netFetch "example.com"
        neverFound).2.events).sum = 6 := by
  decide

/-! ## `fetchWebsiteInfo`: status codes and transport errors -/

/-- C5: a response with status 403 and no error yields exactly
"403 Forbidden: Access is denied." whatever its body; a response with any other
status than 200 and no error yields exactly
"An error occurred while processing your request." whatever its body. -/
theorem fetchWebsiteInfo_non_200 (website : String) (resp : Response) :
    (resp.StatusCode = 403 →
        fetchWebsiteInfo website (.done (some resp) none) =
          .returned "403 Forbidden: Access is denied.") ∧
      (resp.StatusCode ≠ 200 → resp.StatusCode ≠ 403 →
        fetchWebsiteInfo website (.done (some resp) none) =
          .returned "An error occurred while processing your request.") := by
  constructor
  · intro h
    simp [fetchWebsiteInfo, h, forbiddenMessage]
  · intro h200 h403
    simp [fetchWebsiteInfo, h200, h403, errorMessage]

theorem fetchWebsiteInfo_non_200_witness :
    fetchWebsiteInfo "example.com" (.done (some ⟨403, some fixturePage⟩) none) =
        .returned "403 Forbidden: Access is denied." ∧
      fetchWebsiteInfo "example.com" (.done (some ⟨503, some fixturePage⟩) none) =
        .returned "An error occurred while processing your request." :=
  ⟨(fetchWebsiteInfo_non_200 "example.com" ⟨403, some fixturePage⟩).1 rfl,
   (fetchWebsiteInfo_non_200 "example.com" ⟨503, some fixturePage⟩).2
     (by decide) (by decide)⟩

/-- C6 (the code at the failing input): on a transport error, where the
response is nil and the error is not, `fetchWebsiteInfo` panics instead of
returning the placeholder, and the panic passes through the retry wrapper
after a single call. -/
theorem fetchWebsiteInfo_transport_error_panics :
    fetchWebsiteInfo "example.com"
        (.done none (some "dial tcp: lookup www.similarweb.com: no such host")) =
        .panicked ∧
      (fetchWebsiteInfoWithRetry netFetch "example.com" deadNetwork).1 =
        .panicked ∧
      (fetchWebsiteInfoWithRetry netFetch "example.com" deadNetwork).2.events =
        [.fetch "example.com"] := by
  decide

/-! ## The formatted report -/

theorem Contains_self (s : String) : Contains s s = true := by
  rw [Contains_iff]

theorem mem_Contains_concat (l : List String) (w : String) (h : w ∈ l) :
    Contains (concat l) w = true := by
  induction l with
  | nil => cases h
  | cons s rest ih =>
    rcases List.mem_cons.mp h with rfl | h
    · exact Contains_append_of_left _ _ _ (Contains_self _)
    · exact Contains_append_of_right _ _ _ (ih h)

theorem writeCards_written (sb : Builder) (divs : List Card) :
    (writeCards sb divs).written =
      sb.written ++ (divs.map cardWrites).flatten := by
  induction divs generalizing sb with
  | nil => simp [writeCards]
  | cons div rest ih =>
    rcases div with ⟨_ | title, _ | descr, _ | traff⟩ <;>
      simp [writeCards, cardWrites, ih, Builder.WriteString, Builder.empty]

theorem reportBuilder_written (website visitors : String) (doc : Page) :
    (reportBuilder website visitors doc).written =
      ["Website: " ++ website ++ "\n",
        "Number of Visitors: " ++ visitors ++ "\n",
        match doc.description with
        | some description => "Description: " ++ description ++ "\n"
        | none => "Description not found\n"] ++
      match doc.divs with
      | [] => ["\nNo competitors found"]
      | div :: rest => "\nCompetitors:\n" :: ((div :: rest).map cardWrites).flatten := by
  rcases doc with ⟨maintraff, _ | description, _ | ⟨div, rest⟩⟩ <;>
    simp [reportBuilder, writeCards_written, Builder.WriteString, Builder.empty]

theorem fetchWebsiteInfo_scrape (website visitors : String) (doc : Page)
    (hv : doc.maintraff = some visitors) :
    fetchWebsiteInfo website (scrape doc) =
      .returned (reportBuilder website visitors doc).String := by
  simp [fetchWebsiteInfo, scrape, hv]

theorem cardWrites_none (descr traff : Option String) :
    cardWrites ⟨none, descr, traff⟩ = ["Title not found\n"] := rfl

theorem cardWrites_some (title : String) (descr traff : Option String) :
    cardWrites ⟨some title, descr, traff⟩ =
      ["Title: " ++ title ++ "\n",
        match descr with
        | some descr => "Description: " ++ descr ++ "\n"
        | none => "Description not found\n",
        match traff with
        | some traff => "Traffic: " ++ traff ++ "\n"
        | none => "Traffic not found\n",
        "\n"] := by
  cases descr <;> cases traff <;> rfl

theorem no_competitors_not_mem_cardWrites (div : Card) :
    "\nNo competitors found" ∉ cardWrites div := by
  rcases div with ⟨_ | title, _ | descr, _ | traff⟩ <;>
    simp [cardWrites_none, cardWrites_some, String.ext_iff]

theorem no_competitors_not_written (website visitors : String) (doc : Page)
    (hd : doc.divs ≠ []) :
    "\nNo competitors found" ∉ (reportBuilder website visitors doc).written := by
  have hw := reportBuilder_written website visitors doc
  rcases hdivs : doc.divs with _ | ⟨div, rest⟩
  · exact absurd hdivs hd
  · rw [hdivs] at hw
    rw [hw]
    have hcards : ∀ l : List Card,
        "\nNo competitors found" ∉ (l.map cardWrites).flatten := by
      intro l hmem
      obtain ⟨ws, hws, hin⟩ := List.mem_flatten.mp hmem
      obtain ⟨c, _, rfl⟩ := List.mem_map.mp hws
      exact no_competitors_not_mem_cardWrites c hin
    have := hcards (div :: rest)
    cases doc.description <;> simp [String.ext_iff] <;> simpa using this

theorem count_flatten_cardWrites (x : String) (divs : List Card) :
    ((divs.map cardWrites).flatten).count x =
      (divs.map fun div => (cardWrites div).count x).sum := by
  induction divs with
  | nil => rfl
  | cons div rest ih => simp [List.count_append, ih]

theorem sum_indicator_eq_countP (p : Card → Bool) (f : Card → Nat)
    (divs : List Card) (h : ∀ div, f div = if p div then 1 else 0) :
    (divs.map f).sum = divs.countP p := by
  induction divs with
  | nil => rfl
  | cons div rest ih =>
    rw [List.map_cons, List.sum_cons, ih, h div, List.countP_cons]
    by_cases hp : p div <;> simp [hp, Nat.add_comm]

theorem count_title_not_found (div : Card) :
    (cardWrites div).count "Title not found\n" =
      if div.title.isNone then 1 else 0 := by
  rcases div with ⟨_ | title, _ | descr, _ | traff⟩ <;>
    simp [cardWrites_none, cardWrites_some, List.count_cons, String.ext_iff]

theorem count_description_not_found (div : Card) :
    (cardWrites div).count "Description not found\n" =
      if div.title.isSome && div.descr.isNone then 1 else 0 := by
  rcases div with ⟨_ | title, _ | descr, _ | traff⟩ <;>
    simp [cardWrites_none, cardWrites_some, List.count_cons, String.ext_iff]

theorem count_traffic_not_found (div : Card) :
    (cardWrites div).count "Traffic not found\n" =
      if div.title.isSome && div.traff.isNone then 1 else 0 := by
  rcases div with ⟨_ | title, _ | descr, _ | traff⟩ <;>
    simp [cardWrites_none, cardWrites_some, List.count_cons, String.ext_iff]

theorem count_written (x : String) (website visitors : String) (doc : Page)
    (h1 : "Website: " ++ website ++ "\n" ≠ x)
    (h2 : "Number of Visitors: " ++ visitors ++ "\n" ≠ x)
    (h3 : "\nNo competitors found" ≠ x) (h4 : "\nCompetitors:\n" ≠ x) :
    (reportBuilder website visitors doc).written.count x =
      [match doc.description with
        | some description => "Description: " ++ description ++ "\n"
        | none => "Description not found\n"].count x +
      (doc.divs.map fun div => (cardWrites div).count x).sum := by
  rw [reportBuilder_written, ← count_flatten_cardWrites]
  rcases hd : doc.divs with _ | ⟨div, rest⟩
  · simp [List.count_cons, h1, h2, h3, h4]
  · simp [List.count_cons, h1, h2, h3, h4]
    exact Nat.add_comm _ _

theorem report_eq_header (website visitors : String) (doc : Page) :
    ∃ rest, (reportBuilder website visitors doc).String =
      "Website: " ++ website ++ "\nNumber of Visitors: " ++ visitors ++ "\n" ++
        rest := by
  refine ⟨concat ((reportBuilder website visitors doc).written.drop 2), ?_⟩
  rw [Builder.String, reportBuilder_written]
  simp only [List.cons_append, List.drop_succ_cons, List.drop_zero, concat,
    String.append_assoc]
  rfl

theorem written_whole_lines (website visitors : String) (doc : Page) :
    ∀ w ∈ (reportBuilder website visitors doc).written,
      HasSuffix w "\n" = true ∨ w = "\nNo competitors found" := by
  have hcard : ∀ div : Card, ∀ w ∈ cardWrites div, HasSuffix w "\n" = true := by
    intro div w hw
    rcases div with ⟨_ | title, _ | descr, _ | traff⟩ <;>
      simp only [cardWrites_none, cardWrites_some, List.mem_cons,
        List.mem_singleton, List.not_mem_nil, or_false] at hw <;>
      rcases hw with rfl | rfl | rfl | rfl <;>
      first
        | decide
        | (rw [HasSuffix_iff, String.data_append]; exact List.suffix_append _ _)
  intro w hw
  rw [reportBuilder_written, List.mem_append] at hw
  rcases hw with hw | hw
  · left
    simp only [List.mem_cons, List.mem_singleton, List.not_mem_nil, or_false] at hw
    rcases hw with rfl | rfl | rfl
    · rw [HasSuffix_iff, String.data_append]; exact List.suffix_append _ _
    · rw [HasSuffix_iff, String.data_append]; exact List.suffix_append _ _
    · cases doc.description with
      | none => decide
      | some d => rw [HasSuffix_iff, String.data_append]; exact List.suffix_append _ _
  · rcases hd : doc.divs with _ | ⟨div, rest⟩
    · rw [hd] at hw
      exact Or.inr (List.mem_singleton.mp hw)
    · rw [hd] at hw
      rcases List.mem_cons.mp hw with rfl | hw
      · exact Or.inl (by decide)
      · obtain ⟨ws, hws, hin⟩ := List.mem_flatten.mp hw
        obtain ⟨c, _, rfl⟩ := List.mem_map.mp hws
        exact Or.inl (hcard c w hin)

theorem report_ne_of_head (website visitors : String) (doc : Page) (x : String)
    (hx : x.data.head? ≠ some 'W') :
    (reportBuilder website visitors doc).String ≠ x := by
  obtain ⟨rest, h⟩ := report_eq_header website visitors doc
  intro e
  apply hx
  rw [← e, h]
  simp only [String.data_append]
  rfl

/-- C9 (as stated, refuted): on `untitledCardPage` the only card lacks title,
description and traffic; the report has the line "Title not found" for it but
contains neither "Description not found" nor "Traffic not found". -/
theorem report_untitled_card_single_placeholder :
    fetchWebsiteInfo "example.com" (scrape untitledCardPage) =
        .returned ("Website: example.com\nNumber of Visitors: 1.2M\n" ++
          "Description: An example site.\n\nCompetitors:\nTitle not found\n") ∧
      Contains ("Website: example.com\nNumber of Visitors: 1.2M\n" ++
          "Description: An example site.\n\nCompetitors:\nTitle not found\n")
        "Description not found" = false ∧
      Contains ("Website: example.com\nNumber of Visitors: 1.2M\n" ++
          "Description: An example site.\n\nCompetitors:\nTitle not found\n")
        "Traffic not found" = false := by
  decide

/-! ## Reports that look like failures -/

theorem website_in_report (website visitors : String) (doc : Page) :
    Contains (reportBuilder website visitors doc).String website = true := by
  obtain ⟨rest, h⟩ := report_eq_header website visitors doc
  rw [h]
  iterate 4 apply Contains_append_of_left
  exact Contains_append_of_right _ _ _ (Contains_self _)

theorem Contains_line (label t : String) :
    Contains (label ++ t ++ "\n") t = true :=
  Contains_append_of_left _ _ _ (Contains_append_of_right _ _ _ (Contains_self _))

theorem card_scraped_written (div : Card) (t : String) (ht : t ∈ div.scraped) :
    ∃ w ∈ cardWrites div, Contains w t = true := by
  rcases div with ⟨_ | title, descr, traff⟩
  · simp [Card.scraped] at ht
  · rw [cardWrites_some]
    simp only [Card.scraped, List.mem_cons, List.mem_append, Option.mem_toList,
      Option.mem_def] at ht
    rcases ht with rfl | rfl | rfl
    · exact ⟨_, List.mem_cons_self _ _, Contains_line _ _⟩
    · exact ⟨_, List.mem_cons_of_mem _ (List.mem_cons_self _ _), Contains_line _ _⟩
    · exact ⟨_, List.mem_cons_of_mem _ (List.mem_cons_of_mem _
        (List.mem_cons_self _ _)), Contains_line _ _⟩

theorem scraped_in_report (website visitors : String) (doc : Page)
    (hv : doc.maintraff = some visitors) (t : String) (ht : t ∈ doc.scraped) :
    Contains (reportBuilder website visitors doc).String t = true := by
  have key : ∃ w ∈ (reportBuilder website visitors doc).written,
      Contains w t = true := by
    rw [reportBuilder_written]
    simp only [Page.scraped, hv, List.mem_append, Option.mem_toList,
      Option.mem_def, Option.some.injEq] at ht
    rcases ht with (rfl | hd) | hc
    · exact ⟨"Number of Visitors: " ++ visitors ++ "\n", by simp,
        Contains_line _ _⟩
    · rw [hd]
      exact ⟨"Description: " ++ t ++ "\n", by simp, Contains_line _ _⟩
    · obtain ⟨ts, hts, hin⟩ := List.mem_flatten.mp hc
      obtain ⟨c, hcm, rfl⟩ := List.mem_map.mp hts
      obtain ⟨w, hw, hcw⟩ := card_scraped_written c t hin
      refine ⟨w, ?_, hcw⟩
      rcases hdivs : doc.divs with _ | ⟨div, rest⟩
      · rw [hdivs] at hcm; cases hcm
      · rw [hdivs] at hcm
        apply List.mem_append_right
        apply List.mem_cons_of_mem
        exact List.mem_flatten.mpr ⟨_, List.mem_map.mpr ⟨c, hcm, rfl⟩, hw⟩
  obtain ⟨w, hw, hcw⟩ := key
  exact Contains_of_Contains_of_Contains _ _ _ hcw (mem_Contains_concat _ _ hw)

theorem tainted_report_retried (website visitors : String) (doc : Page)
    (hv : doc.maintraff = some visitors) (ht : Tainted website doc) :
    Contains (reportBuilder website visitors doc).String
        "Could not find number of visitors" = true ∨
      Contains (reportBuilder website visitors doc).String "403" = true := by
  rcases ht with hw | ⟨t, htm, h | h⟩
  · exact Or.inr (Contains_of_Contains_of_Contains _ _ _ hw
      (website_in_report _ _ _))
  · exact Or.inr (Contains_of_Contains_of_Contains _ _ _ h
      (scraped_in_report _ _ _ hv t htm))
  · exact Or.inl (Contains_of_Contains_of_Contains _ _ _ h
      (scraped_in_report _ _ _ hv t htm))

theorem netFetch_scrape (website visitors : String) (net : Network) (doc : Page)
    (h0 : net 0 = scrape doc) (hv : doc.maintraff = some visitors) :
    netFetch website net =
      (.returned (reportBuilder website visitors doc).String,
        fun n => net (n + 1)) := by
  simp [netFetch, h0, fetchWebsiteInfo_scrape website visitors doc hv]

theorem tainted_first_scrape_retried (website visitors : String) (doc : Page)
    (hv : doc.maintraff = some visitors) (ht : Tainted website doc)
    (net : Network) (h0 : net 0 = scrape doc) :
    2 ≤ fetchCalls (fetchWebsiteInfoWithRetry netFetch website net).2.events :=
  (further_attempt_aux netFetch website net _ _
    (netFetch_scrape website visitors net doc h0 hv)).1.mpr
    (tainted_report_retried website visitors doc hv ht)

/-- C10 (amended): a report embeds the website and the scraped texts, so when
the website contains "403", or a scraped text contains "403" or
"Could not find number of visitors", the report of a successful scrape passes
for a failure.  Whatever the later exchanges bring, a first report of this kind
is never returned after a single attempt.  If all three exchanges bring such
pages, the wrapper makes all three attempts, sleeps three times for two
seconds and returns the third report.  Such scrapes exist. -/
theorem tainted_scrapes_exhaust_retries (website : String) (net : Network)
    (d0 d1 d2 : Page) (v0 v1 v2 : String)
    (h0 : net 0 = scrape d0) (h1 : net 1 = scrape d1) (h2 : net 2 = scrape d2)
    (hv0 : d0.maintraff = some v0) (hv1 : d1.maintraff = some v1)
    (hv2 : d2.maintraff = some v2)
    (ht0 : Tainted website d0) (ht1 : Tainted website d1)
    (ht2 : Tainted website d2) :
    (fetchWebsiteInfo website (net 0) =
        .returned (reportBuilder website v0 d0).String ∧
      (Contains (reportBuilder website v0 d0).String
          "Could not find number of visitors" = true ∨
        Contains (reportBuilder website v0 d0).String "403" = true)) ∧
      (fetchWebsiteInfoWithRetry netFetch website net).1 =
        .returned (reportBuilder website v2 d2).String ∧
      (fetchWebsiteInfoWithRetry netFetch website net).1 =
        fetchWebsiteInfo website (net 2) ∧
      fetchCalls (fetchWebsiteInfoWithRetry netFetch website net).2.events = 3 ∧
      sleeps (fetchWebsiteInfoWithRetry netFetch website net).2.events = [2, 2, 2] ∧
      (∀ later : Network, later 0 = scrape d0 →
        2 ≤ fetchCalls (fetchWebsiteInfoWithRetry netFetch website later).2.events) ∧
      ∃ (w : String) (d : Page) (v : String), d.maintraff = some v ∧
        ∀ n : Network, n 0 = scrape d →
          fetchWebsiteInfo w (n 0) = .returned (reportBuilder w v d).String ∧
          2 ≤ fetchCalls (fetchWebsiteInfoWithRetry netFetch w n).2.events := by
  have run : fetchWebsiteInfoWithRetry netFetch website net =
      (.returned (reportBuilder website v2 d2).String,
        ⟨fun n => net (n + 1 + 1 + 1),
          [.fetch website, .log (retryLine 1), .sleep 2,
           .fetch website, .log (retryLine 2), .sleep 2,
           .fetch website, .log (retryLine 3), .sleep 2]⟩) := by
    unfold fetchWebsiteInfoWithRetry maxRetries
    rw [retryLoop_again netFetch website 2 0 "" ⟨net, []⟩ _ _
        (netFetch_scrape website v0 net d0 h0 hv0)
        (tainted_report_retried website v0 d0 hv0 ht0),
      retryLoop_again netFetch website 1 1 _ _ _ _
        (netFetch_scrape website v1 (fun n => net (n + 1)) d1 h1 hv1)
        (tainted_report_retried website v1 d1 hv1 ht1),
      retryLoop_again netFetch website 0 2 _ _ _ _
        (netFetch_scrape website v2 (fun n => net (n + 1 + 1)) d2 h2 hv2)
        (tainted_report_retried website v2 d2 hv2 ht2)]
    rfl
  refine ⟨⟨?_, tainted_report_retried website v0 d0 hv0 ht0⟩, ?_, ?_, ?_, ?_,
    fun later hl => tainted_first_scrape_retried website v0 d0 hv0 ht0 later hl,
    "403.example.com", noCardsPage, "1.2M", rfl, fun n hn => ⟨?_, ?_⟩⟩
  · rw [h0]; exact fetchWebsiteInfo_scrape website v0 d0 hv0
  · rw [run]
  · rw [run, h2]; exact (fetchWebsiteInfo_scrape website v2 d2 hv2).symm
  · rw [run]; rfl
  · rw [run]; rfl
  · rw [hn]; exact fetchWebsiteInfo_scrape _ _ _ rfl
  · exact tainted_first_scrape_retried "403.example.com" "1.2M" noCardsPage rfl
      (Or.inl (by decide)) n hn

theorem tainted_scrapes_exhaust_retries_witness :
    (fetchWebsiteInfo "403.example.com" (fixtureNetwork 0) =
        .returned (reportBuilder "403.example.com" "1.2M" fixturePage).String ∧
      (Contains (reportBuilder "403.example.com" "1.2M" fixturePage).String
          "Could not find number of visitors" = true ∨
        Contains (reportBuilder "403.example.com" "1.2M" fixturePage).String
          "403" = true)) ∧
      (fetchWebsiteInfoWithRetry netFetch "403.example.com" fixtureNetwork).1 =
        .returned (reportBuilder "403.example.com" "1.2M" fixturePage).String ∧
      (fetchWebsiteInfoWithRetry netFetch "403.example.com" fixtureNetwork).1 =
        fetchWebsiteInfo "403.example.com" (fixtureNetwork 2) ∧
      fetchCalls (fetchWebsiteInfoWithRetry netFetch "403.example.com"
        fixtureNetwork).2.events = 3 ∧
      sleeps (fetchWebsiteInfoWithRetry netFetch "403.example.com"
        fixtureNetwork).2.events = [2, 2, 2] ∧
      (∀ later : Network, later 0 = scrape fixturePage →
        2 ≤ fetchCalls (fetchWebsiteInfoWithRetry netFetch "403.example.com"
          later).2.events) ∧
      ∃ (w : String) (d : Page) (v : String), d.maintraff = some v ∧
        ∀ n : Network, n 0 = scrape d →
          fetchWebsiteInfo w (n 0) = .returned (reportBuilder w v d).String ∧
          2 ≤ fetchCalls (fetchWebsiteInfoWithRetry netFetch w n).2.events :=
  tainted_scrapes_exhaust_retries "403.example.com" fixtureNetwork
    fixturePage fixturePage fixturePage "1.2M" "1.2M" "1.2M" rfl rfl rfl rfl rfl rfl
    (Or.inl (by decide)) (Or.inl (by decide)) (Or.inl (by decide))

set_option maxRecDepth 100000 in
/-- C10 (as stated, refuted): for the website "403.example.com" the first
exchange brings a page that is scraped with success, the second answers 503;
the wrapper stops after two attempts and one sleep and returns the error
text of the second attempt. -/
theorem tainted_scrape_then_error_stops_early :
    Contains "403.example.com" "403" = true ∧
      fetchWebsiteInfo "403.example.com" (failsAfterFirst 0) =
        .returned (reportBuilder "403.example.com" "1.2M" fixturePage).String ∧
      fetchWebsiteInfo "403.example.com" (failsAfterFirst 1) =
        .returned "An error occurred while processing your request." ∧
      (fetchWebsiteInfoWithRetry netFetch "403.example.com" failsAfterFirst).1 =
        .returned "An error occurred while processing your request." ∧
      (fetchWebsiteInfoWithRetry netFetch "403.example.com"
          failsAfterFirst).2.events =
        [.fetch "403.example.com",
         .log "Retry 1: Could not fetch the information, retrying...", .sleep 2,
         .fetch "403.example.com"] ∧
      fetchCalls (fetchWebsiteInfoWithRetry netFetch "403.example.com"
        failsAfterFirst).2.events = 2 ∧
      sleeps (fetchWebsiteInfoWithRetry netFetch "403.example.com"
        failsAfterFirst).2.events = [2] := by
  refine ⟨by decide, rfl, rfl, ?_, ?_, ?_, ?_⟩ <;> decide

/-! ## No stray "Title not found" -/

theorem infix_split_at {α : Type} (x : α) (n a b : List α) (hx : x ∉ n)
    (h : n <:+: a ++ x :: b) : n <:+: a ∨ n <:+: b := by
  obtain ⟨s, t, e⟩ := h
  rw [List.append_assoc, List.append_eq_append_iff] at e
  rcases e with ⟨a', ha, e⟩ | ⟨c', hs, e⟩
  · rw [List.append_eq_append_iff] at e
    rcases e with ⟨u, hu, _⟩ | ⟨u, hn, e⟩
    · exact Or.inl ⟨s, u, by rw [ha, hu, List.append_assoc]⟩
    · cases u with
      | nil =>
        rw [List.append_nil] at hn
        exact Or.inl ⟨s, [], by rw [ha, hn, List.append_nil]⟩
      | cons y u =>
        rw [List.cons_append, List.cons.injEq] at e
        exact absurd (by rw [hn, e.1]; simp) hx
  · cases c' with
    | nil =>
      cases n with
      | nil => exact Or.inl List.nil_infix
      | cons y n =>
        rw [List.nil_append, List.cons_append, List.cons.injEq] at e
        exact absurd (by rw [e.1]; simp) hx
    | cons y c' =>
      rw [List.cons_append, List.cons.injEq] at e
      exact Or.inr ⟨c', t, by rw [e.2, List.append_assoc]⟩

theorem free_text (t rest : List Char) (ht : Free t) (hr : Free rest) :
    Free (t ++ ("\n".data ++ rest)) := by
  intro h
  rcases infix_split_at (Char.ofNat 10) _ t rest (by decide) h with h | h
  · exact ht h
  · exact hr h

theorem free_literal (lit : String)
    (hl : lit ∈ ["Website: ", "Number of Visitors: ", "Description: ", "Title: ",
      "Traffic: ", "\n", "Description not found\n", "Traffic not found\n",
      "\nCompetitors:\n", "\nNo competitors found"])
    (rest : List Char) (hr : Free rest) : Free (lit.data ++ rest) := by
  unfold Free at *
  simp only [List.mem_cons, List.mem_singleton, List.not_mem_nil, or_false] at hl
  rcases hl with rfl | rfl | rfl | rfl | rfl | rfl | rfl | rfl | rfl | rfl <;>
    simp only [List.cons_append, List.nil_append, List.infix_cons_iff] <;>
    simp [List.cons_prefix_cons, hr]

theorem concat_data_eq_charsOf (l : List String) :
    (concat l).data = charsOf l [] := by
  induction l with
  | nil => rfl
  | cons s rest ih => simp [concat, charsOf, String.data_append] at ih ⊢; exact ih

theorem charsOf_append (l m : List String) (rest : List Char) :
    charsOf (l ++ m) rest = charsOf l (charsOf m rest) := by
  simp [charsOf, List.foldr_append]

theorem free_line (label t : String) (rest : List Char)
    (hl : label ∈ ["Website: ", "Number of Visitors: ", "Description: ", "Title: ",
      "Traffic: ", "\n", "Description not found\n", "Traffic not found\n",
      "\nCompetitors:\n", "\nNo competitors found"])
    (ht : Free t.data) (hr : Free rest) :
    Free ((label ++ t ++ "\n").data ++ rest) := by
  have h := free_literal label hl _ (free_text t.data rest ht hr)
  simpa only [String.data_append, List.append_assoc] using h

theorem free_card (div : Card) (htitle : div.title.isSome = true)
    (hs : ∀ t ∈ div.scraped, Free t.data) (rest : List Char) (hr : Free rest) :
    Free (charsOf (cardWrites div) rest) := by
  rcases div with ⟨_ | title, descr, traff⟩
  · cases htitle
  · rw [cardWrites_some]
    have h4 : Free ("\n".data ++ rest) := free_literal "\n" (by simp) rest hr
    have h3 : Free ((match traff with
        | some traff => "Traffic: " ++ traff ++ "\n"
        | none => "Traffic not found\n").data ++ ("\n".data ++ rest)) := by
      cases traff with
      | none => exact free_literal "Traffic not found\n" (by simp) _ h4
      | some traff =>
        exact free_line "Traffic: " traff _ (by simp)
          (hs traff (by simp [Card.scraped])) h4
    have h2 : Free ((match descr with
        | some descr => "Description: " ++ descr ++ "\n"
        | none => "Description not found\n").data ++
        ((match traff with
        | some traff => "Traffic: " ++ traff ++ "\n"
        | none => "Traffic not found\n").data ++ ("\n".data ++ rest))) := by
      cases descr with
      | none => exact free_literal "Description not found\n" (by simp) _ h3
      | some descr =>
        exact free_line "Description: " descr _ (by simp)
          (hs descr (by simp [Card.scraped])) h3
    exact free_line "Title: " title _ (by simp) (hs title (by simp [Card.scraped])) h2

theorem free_cards (divs : List Card)
    (htitles : ∀ div ∈ divs, div.title.isSome = true)
    (hs : ∀ div ∈ divs, ∀ t ∈ div.scraped, Free t.data) :
    Free (charsOf (divs.map cardWrites).flatten []) := by
  induction divs with
  | nil => exact fun h => by simp [charsOf] at h
  | cons div rest ih =>
    rw [List.map_cons, List.flatten_cons, charsOf_append]
    exact free_card div (htitles div (List.mem_cons_self _ _))
      (hs div (List.mem_cons_self _ _)) _
      (ih (fun d hd => htitles d (List.mem_cons_of_mem _ hd))
        (fun d hd => hs d (List.mem_cons_of_mem _ hd)))

theorem free_report (website visitors : String) (doc : Page)
    (hv : doc.maintraff = some visitors)
    (htitles : ∀ div ∈ doc.divs, div.title.isSome = true)
    (hw : Free website.data) (hs : ∀ t ∈ doc.scraped, Free t.data) :
    Free (reportBuilder website visitors doc).String.data := by
  rw [Builder.String, concat_data_eq_charsOf, reportBuilder_written, charsOf_append]
  have hcards : ∀ div ∈ doc.divs, ∀ t ∈ div.scraped, Free t.data := by
    intro div hdiv t ht
    apply hs
    simp only [Page.scraped, List.mem_append]
    exact Or.inr (List.mem_flatten.mpr ⟨_, List.mem_map.mpr ⟨div, hdiv, rfl⟩, ht⟩)
  have h4 : Free (charsOf (match doc.divs with
      | [] => ["\nNo competitors found"]
      | div :: rest =>
        "\nCompetitors:\n" :: ((div :: rest).map cardWrites).flatten) []) := by
    have := free_cards doc.divs htitles hcards
    rcases hd : doc.divs with _ | ⟨div, rest⟩
    · exact free_literal "\nNo competitors found" (by simp) []
        (fun h => by simp at h)
    · rw [hd] at this
      exact free_literal "\nCompetitors:\n" (by simp) _ this
  have h3 : Free ((match doc.description with
      | some description => "Description: " ++ description ++ "\n"
      | none => "Description not found\n").data ++
      charsOf (match doc.divs with
      | [] => ["\nNo competitors found"]
      | div :: rest =>
        "\nCompetitors:\n" :: ((div :: rest).map cardWrites).flatten) []) := by
    rcases hd : doc.description with _ | description
    · exact free_literal "Description not found\n" (by simp) _ h4
    · exact free_line "Description: " description _ (by simp)
        (hs description (by simp [Page.scraped, hd])) h4
  exact free_line "Website: " website _ (by simp) hw
    (free_line "Number of Visitors: " visitors _ (by simp)
      (hs visitors (by simp [Page.scraped, hv])) h3)

/-! ## Titles in document order -/

theorem OccurInOrder_append_left (xs : List String) (p s : String)
    (h : OccurInOrder xs s) : OccurInOrder xs (p ++ s) := by
  cases xs with
  | nil => trivial
  | cons x xs =>
    obtain ⟨a, b, e, hb⟩ := h
    exact ⟨p ++ a, b, by rw [e]; simp only [String.append_assoc], hb⟩

theorem titles_in_order (divs : List Card)
    (htitles : ∀ div ∈ divs, div.title.isSome = true) :
    OccurInOrder ((divs.filterMap Card.title).map fun t => "Title: " ++ t ++ "\n")
      (concat (divs.map cardWrites).flatten) := by
  induction divs with
  | nil => trivial
  | cons div rest ih =>
    have ih := ih (fun d hd => htitles d (List.mem_cons_of_mem _ hd))
    have ht := htitles div (List.mem_cons_self _ _)
    rcases div with ⟨_ | title, descr, traff⟩
    · cases ht
    · rw [List.map_cons, List.flatten_cons, concat_append]
      refine ⟨"", concat (cardWrites ⟨some title, descr, traff⟩).tail ++
        concat (rest.map cardWrites).flatten, ?_,
        OccurInOrder_append_left _ _ _ ih⟩
      rw [cardWrites_some]
      simp only [List.tail_cons, concat, String.append_assoc]
      rfl

theorem filterMap_title_length (divs : List Card)
    (htitles : ∀ div ∈ divs, div.title.isSome = true) :
    (divs.filterMap Card.title).length = divs.length := by
  induction divs with
  | nil => rfl
  | cons div rest ih =>
    have ih := ih (fun d hd => htitles d (List.mem_cons_of_mem _ hd))
    have ht := htitles div (List.mem_cons_self _ _)
    rcases div with ⟨_ | title, descr, traff⟩
    · cases ht
    · simp [List.filterMap_cons, ih]

/-- C7 (amended): with the visitor element found and a title in every card,
if neither the requested website nor any scraped text contains
"Title not found", then the report contains "Number of Visitors: " followed by
the visitor text, does not contain "Title not found", and, when there are cards,
has after "\nCompetitors:\n" the lines "Title: <t>\n" of all the cards, one
after the other in document order. -/
theorem report_titles_in_order (website visitors : String) (doc : Page)
    (hv : doc.maintraff = some visitors)
    (htitles : ∀ div ∈ doc.divs, div.title.isSome = true)
    (hw : Contains website "Title not found" = false)
    (hs : ∀ t ∈ doc.scraped, Contains t "Title not found" = false) :
    fetchWebsiteInfo website (scrape doc) =
        .returned (reportBuilder website visitors doc).String ∧
      Contains (reportBuilder website visitors doc).String
        ("Number of Visitors: " ++ visitors) = true ∧
      (doc.divs.filterMap Card.title).length = doc.divs.length ∧
      (doc.divs ≠ [] → ∃ a b,
        (reportBuilder website visitors doc).String = a ++ "\nCompetitors:\n" ++ b ∧
        OccurInOrder
          ((doc.divs.filterMap Card.title).map fun t => "Title: " ++ t ++ "\n") b) ∧
      Contains (reportBuilder website visitors doc).String "Title not found" =
        false := by
  refine ⟨fetchWebsiteInfo_scrape website visitors doc hv, ?_,
    filterMap_title_length doc.divs htitles, ?_, ?_⟩
  · obtain ⟨rest, h⟩ := report_eq_header website visitors doc
    rw [h]
    apply Contains_append_of_left
    apply Contains_append_of_left
    rw [String.append_assoc]
    exact Contains_append_of_right _ _ _
      (Contains_of_Contains_of_Contains _ ("Number of Visitors: " ++ visitors) _
        (Contains_self _)
        (Contains_append_of_right "\n" ("Number of Visitors: " ++ visitors) _
          (Contains_self _)))
  · intro hne
    rcases hd : doc.divs with _ | ⟨div, rest⟩
    · exact absurd hd hne
    · refine ⟨concat ((reportBuilder website visitors doc).written.take 3),
        concat ((div :: rest).map cardWrites).flatten, ?_, ?_⟩
      · rw [Builder.String, reportBuilder_written, hd]
        simp only [List.cons_append, List.nil_append, List.take_succ_cons,
          List.take_zero, concat, String.append_assoc]
        rfl
      · rw [← hd]
        exact titles_in_order doc.divs htitles
  · rw [Contains_eq_false_iff]
    exact free_report website visitors doc hv htitles
      ((Contains_eq_false_iff _ _).mp hw)
      (fun t ht => (Contains_eq_false_iff _ _).mp (hs t ht))

theorem report_titles_in_order_witness :
    fetchWebsiteInfo "example.com" (scrape fixturePage) =
        .returned (reportBuilder "example.com" "1.2M" fixturePage).String ∧
      Contains (reportBuilder "example.com" "1.2M" fixturePage).String
        ("Number of Visitors: " ++ "1.2M") = true ∧
      (fixturePage.divs.filterMap Card.title).length = fixturePage.divs.length ∧
      (fixturePage.divs ≠ [] → ∃ a b,
        (reportBuilder "example.com" "1.2M" fixturePage).String =
          a ++ "\nCompetitors:\n" ++ b ∧
        OccurInOrder
          ((fixturePage.divs.filterMap Card.title).map
            fun t => "Title: " ++ t ++ "\n") b) ∧
      Contains (reportBuilder "example.com" "1.2M" fixturePage).String
        "Title not found" = false :=
  report_titles_in_order "example.com" "1.2M" fixturePage rfl (by decide)
    (by decide) (by decide)

set_option maxRecDepth 100000 in
/-- C7 (as stated, refuted): `fixturePage` has a visitor value and two cards
with titles, and none of its texts contains "Title not found"; requested for the
website "Title not found" its report contains "Title not found". -/
theorem report_website_title_not_found :
    fixturePage.maintraff = some "1.2M" ∧
      (∀ div ∈ fixturePage.divs, div.title.isSome = true) ∧
      (∀ t ∈ fixturePage.scraped, Contains t "Title not found" = false) ∧
      fetchWebsiteInfo "Title not found" (scrape fixturePage) =
        .returned ("Website: Title not found\nNumber of Visitors: 1.2M\n" ++
          "Description: An example site.\n\nCompetitors:\n" ++
          "Title: first.example\nDescription: The first competitor.\n" ++
          "Traffic: 900K\n\n" ++
          "Title: second.example\nDescription: The second competitor.\n" ++
          "Traffic: 350K\n\n") ∧
      Contains ("Website: Title not found\nNumber of Visitors: 1.2M\n" ++
          "Description: An example site.\n\nCompetitors:\n" ++
          "Title: first.example\nDescription: The first competitor.\n" ++
          "Traffic: 900K\n\n" ++
          "Title: second.example\nDescription: The second competitor.\n" ++
          "Traffic: 350K\n\n") "Title not found" = true := by
  refine ⟨rfl, by decide, by decide, rfl, ?_⟩
  iterate 4 apply Contains_append_of_left
  decide

/-! ## Texts that the report does not contain -/

theorem freeOf_text (n t rest : List Char) (hnl : Char.ofNat 10 ∉ n)
    (ht : FreeOf n t) (hr : FreeOf n rest) :
    FreeOf n (t ++ ("\n".data ++ rest)) := by
  intro h
  rcases infix_split_at (Char.ofNat 10) n t rest hnl h with h | h
  · exact ht h
  · exact hr h

theorem safeWrite_line (n : List Char) (hnl : Char.ofNat 10 ∉ n)
    (label t : String) (hl : SafeWrite n label) (ht : FreeOf n t.data) :
    SafeWrite n (label ++ t ++ "\n") := by
  intro rest hr
  have h := hl _ (freeOf_text n t.data rest hnl ht hr)
  simpa only [String.data_append, List.append_assoc] using h

theorem freeOf_charsOf (n : List Char) (ws : List String) (rest : List Char)
    (h : ∀ w ∈ ws, SafeWrite n w) (hr : FreeOf n rest) :
    FreeOf n (charsOf ws rest) := by
  induction ws with
  | nil => exact hr
  | cons w ws ih =>
    exact h w (List.mem_cons_self _ _) _
      (ih fun v hv => h v (List.mem_cons_of_mem _ hv))

theorem safeWrite_cardWrites (n : List Char) (hnl : Char.ofNat 10 ∉ n)
    (div : Card)
    (hlab : ∀ lit ∈ ["Website: ", "Number of Visitors: ", "Description: ",
      "Title: ", "Traffic: ", "\n"], SafeWrite n lit)
    (htitle : div.title = none → SafeWrite n "Title not found\n")
    (hdescr : div.title.isSome = true → div.descr = none →
      SafeWrite n "Description not found\n")
    (htraff : div.title.isSome = true → div.traff = none →
      SafeWrite n "Traffic not found\n")
    (hs : ∀ t ∈ div.scraped, FreeOf n t.data) :
    ∀ w ∈ cardWrites div, SafeWrite n w := by
  intro w hw
  rcases div with ⟨_ | title, descr, traff⟩
  · rw [cardWrites_none, List.mem_singleton] at hw
    rw [hw]
    exact htitle rfl
  · rw [cardWrites_some] at hw
    simp only [List.mem_cons, List.mem_singleton, List.not_mem_nil, or_false] at hw
    rcases hw with rfl | rfl | rfl | rfl
    · exact safeWrite_line n hnl "Title: " title (hlab _ (by simp))
        (hs title (by simp [Card.scraped]))
    · cases descr with
      | none => exact hdescr rfl rfl
      | some descr =>
        exact safeWrite_line n hnl "Description: " descr (hlab _ (by simp))
          (hs descr (by simp [Card.scraped]))
    · cases traff with
      | none => exact htraff rfl rfl
      | some traff =>
        exact safeWrite_line n hnl "Traffic: " traff (hlab _ (by simp))
          (hs traff (by simp [Card.scraped]))
    · exact hlab _ (by simp)

theorem report_freeOf (n : List Char) (hnl : Char.ofNat 10 ∉ n)
    (website visitors : String) (doc : Page)
    (hv : doc.maintraff = some visitors)
    (hlab : ∀ lit ∈ ["Website: ", "Number of Visitors: ", "Description: ",
      "Title: ", "Traffic: ", "\n"], SafeWrite n lit)
    (hdesc : doc.description = none → SafeWrite n "Description not found\n")
    (hnone : doc.divs = [] → SafeWrite n "\nNo competitors found")
    (hsome : doc.divs ≠ [] → SafeWrite n "\nCompetitors:\n")
    (htitle : ∀ div ∈ doc.divs, div.title = none →
      SafeWrite n "Title not found\n")
    (hdescr : ∀ div ∈ doc.divs, div.title.isSome = true → div.descr = none →
      SafeWrite n "Description not found\n")
    (htraff : ∀ div ∈ doc.divs, div.title.isSome = true → div.traff = none →
      SafeWrite n "Traffic not found\n")
    (hw : FreeOf n website.data) (hs : ∀ t ∈ doc.scraped, FreeOf n t.data) :
    FreeOf n (reportBuilder website visitors doc).String.data := by
  have hnil : FreeOf n [] := fun h => hw (h.trans List.nil_infix)
  rw [Builder.String, concat_data_eq_charsOf]
  refine freeOf_charsOf n _ [] (fun w hmem => ?_) hnil
  rw [reportBuilder_written] at hmem
  rcases List.mem_append.mp hmem with h | h
  · simp only [List.mem_cons, List.mem_singleton, List.not_mem_nil, or_false] at h
    rcases h with rfl | rfl | rfl
    · exact safeWrite_line n hnl "Website: " website (hlab _ (by simp)) hw
    · exact safeWrite_line n hnl "Number of Visitors: " visitors (hlab _ (by simp))
        (hs visitors (by simp [Page.scraped, hv]))
    · rcases hd : doc.description with _ | description
      · exact hdesc hd
      · exact safeWrite_line n hnl "Description: " description (hlab _ (by simp))
          (hs description (by simp [Page.scraped, hd]))
  · rcases hdv : doc.divs with _ | ⟨div, rest⟩
    · rw [hdv, List.mem_singleton] at h
      rw [h]
      exact hnone hdv
    · rw [hdv] at h
      rcases List.mem_cons.mp h with rfl | h
      · exact hsome (by rw [hdv]; simp)
      · obtain ⟨ws, hws, hin⟩ := List.mem_flatten.mp h
        obtain ⟨c, hc, rfl⟩ := List.mem_map.mp hws
        have hcm : c ∈ doc.divs := by rw [hdv]; exact hc
        refine safeWrite_cardWrites n hnl c hlab (htitle c hcm) (hdescr c hcm)
          (htraff c hcm) (fun t ht => hs t ?_) w hin
        simp only [Page.scraped, List.mem_append]
        exact Or.inr (List.mem_flatten.mpr ⟨_, List.mem_map.mpr ⟨c, hcm, rfl⟩, ht⟩)

theorem safe_competitors :
    ∀ lit ∈ ["Website: ", "Number of Visitors: ", "Description: ", "Title: ",
      "Traffic: ", "\n", "Description not found\n", "\nNo competitors found"],
      SafeWrite "Competitors:".data lit := by
  intro lit hl rest hr
  unfold FreeOf at *
  simp only [List.mem_cons, List.mem_singleton, List.not_mem_nil, or_false] at hl
  rcases hl with rfl | rfl | rfl | rfl | rfl | rfl | rfl | rfl <;>
    simp only [List.cons_append, List.nil_append, List.infix_cons_iff] <;>
    simp [List.cons_prefix_cons, hr]

theorem safe_no_competitors :
    ∀ lit ∈ ["Website: ", "Number of Visitors: ", "Description: ", "Title: ",
      "Traffic: ", "\n", "Description not found\n", "\nCompetitors:\n",
      "Title not found\n", "Traffic not found\n"],
      SafeWrite "No competitors found".data lit := by
  intro lit hl rest hr
  unfold FreeOf at *
  simp only [List.mem_cons, List.mem_singleton, List.not_mem_nil, or_false] at hl
  rcases hl with rfl | rfl | rfl | rfl | rfl | rfl | rfl | rfl | rfl | rfl <;>
    simp only [List.cons_append, List.nil_append, List.infix_cons_iff] <;>
    simp [List.cons_prefix_cons, hr]

theorem safe_description_not_found :
    ∀ lit ∈ ["Website: ", "Number of Visitors: ", "Description: ", "Title: ",
      "Traffic: ", "\n", "\nNo competitors found", "\nCompetitors:\n",
      "Title not found\n", "Traffic not found\n"],
      SafeWrite "Description not found".data lit := by
  intro lit hl rest hr
  unfold FreeOf at *
  simp only [List.mem_cons, List.mem_singleton, List.not_mem_nil, or_false] at hl
  rcases hl with rfl | rfl | rfl | rfl | rfl | rfl | rfl | rfl | rfl | rfl <;>
    simp only [List.cons_append, List.nil_append, List.infix_cons_iff] <;>
    simp [List.cons_prefix_cons, hr]

theorem safe_traffic_not_found :
    ∀ lit ∈ ["Website: ", "Number of Visitors: ", "Description: ", "Title: ",
      "Traffic: ", "\n", "\nNo competitors found", "\nCompetitors:\n",
      "Title not found\n", "Description not found\n"],
      SafeWrite "Traffic not found".data lit := by
  intro lit hl rest hr
  unfold FreeOf at *
  simp only [List.mem_cons, List.mem_singleton, List.not_mem_nil, or_false] at hl
  rcases hl with rfl | rfl | rfl | rfl | rfl | rfl | rfl | rfl | rfl | rfl <;>
    simp only [List.cons_append, List.nil_append, List.infix_cons_iff] <;>
    simp [List.cons_prefix_cons, hr]

/-! ## Reports without competitors -/

/-- C8: with the visitor element found and no competitor cards, the report is
the three header lines followed by "\nNo competitors found", so it ends with
that suffix with no newline after it, and it does not contain "Competitors:"
unless the website or a scraped text does.  With at least one card the report
contains "\nCompetitors:\n" and does not contain "No competitors found" unless
the website or a scraped text does. -/
theorem report_no_competitors (website visitors : String) (doc : Page)
    (hv : doc.maintraff = some visitors) :
    fetchWebsiteInfo website (scrape doc) =
        .returned (reportBuilder website visitors doc).String ∧
      (doc.divs = [] →
        HasSuffix (reportBuilder website visitors doc).String
            "\nNo competitors found" = true ∧
          (reportBuilder website visitors doc).String =
            "Website: " ++ website ++ "\n" ++
              ("Number of Visitors: " ++ visitors ++ "\n") ++
              (match doc.description with
                | some description => "Description: " ++ description ++ "\n"
                | none => "Description not found\n") ++
              "\nNo competitors found" ∧
          (Contains website "Competitors:" = false →
            (∀ t ∈ doc.scraped, Contains t "Competitors:" = false) →
            Contains (reportBuilder website visitors doc).String "Competitors:" =
              false)) ∧
      (doc.divs ≠ [] →
        Contains (reportBuilder website visitors doc).String "\nCompetitors:\n" =
            true ∧
          (Contains website "No competitors found" = false →
            (∀ t ∈ doc.scraped, Contains t "No competitors found" = false) →
            Contains (reportBuilder website visitors doc).String
              "No competitors found" = false)) := by
  refine ⟨fetchWebsiteInfo_scrape website visitors doc hv, ?_, ?_⟩
  · intro hd
    have hw := reportBuilder_written website visitors doc
    rw [hd] at hw
    refine ⟨?_, ?_, ?_⟩
    · rw [HasSuffix_iff, Builder.String, hw, concat_append, String.data_append]
      exact List.suffix_append _ _
    · rw [Builder.String, hw]
      simp only [List.cons_append, List.nil_append, concat, String.append_assoc]
      rfl
    · intro hweb hs
      rw [Contains_eq_false_iff]
      refine report_freeOf _ (by decide) website visitors doc hv
        (fun lit hl => safe_competitors lit (by
          simp only [List.mem_cons, List.mem_singleton, List.not_mem_nil,
            or_false] at hl ⊢
          tauto))
        (fun _ => safe_competitors _ (by simp))
        (fun _ => safe_competitors _ (by simp))
        (fun h => absurd hd h)
        (fun div hdiv => by rw [hd] at hdiv; cases hdiv)
        (fun div hdiv => by rw [hd] at hdiv; cases hdiv)
        (fun div hdiv => by rw [hd] at hdiv; cases hdiv)
        ((Contains_eq_false_iff _ _).mp hweb)
        (fun t ht => (Contains_eq_false_iff _ _).mp (hs t ht))
  · intro hd
    refine ⟨?_, ?_⟩
    · apply mem_Contains_concat
      rw [reportBuilder_written]
      rcases hdv : doc.divs with _ | ⟨div, rest⟩
      · exact absurd hdv hd
      · simp
    · intro hweb hs
      rw [Contains_eq_false_iff]
      refine report_freeOf _ (by decide) website visitors doc hv
        (fun lit hl => safe_no_competitors lit (by
          simp only [List.mem_cons, List.mem_singleton, List.not_mem_nil,
            or_false] at hl ⊢
          tauto))
        (fun _ => safe_no_competitors _ (by simp))
        (fun h => absurd h hd)
        (fun _ => safe_no_competitors _ (by simp))
        (fun _ _ _ => safe_no_competitors _ (by simp))
        (fun _ _ _ _ => safe_no_competitors _ (by simp))
        (fun _ _ _ _ => safe_no_competitors _ (by simp))
        ((Contains_eq_false_iff _ _).mp hweb)
        (fun t ht => (Contains_eq_false_iff _ _).mp (hs t ht))

theorem report_no_competitors_witness :
    (HasSuffix (reportBuilder "example.com" "1.2M" noCardsPage).String
          "\nNo competitors found" = true ∧
        (reportBuilder "example.com" "1.2M" noCardsPage).String =
          "Website: " ++ "example.com" ++ "\n" ++
            ("Number of Visitors: " ++ "1.2M" ++ "\n") ++
            (match noCardsPage.description with
              | some description => "Description: " ++ description ++ "\n"
              | none => "Description not found\n") ++
            "\nNo competitors found" ∧
        Contains (reportBuilder "example.com" "1.2M" noCardsPage).String
          "Competitors:" = false) ∧
      Contains (reportBuilder "example.com" "1.2M" fixturePage).String
        "\nCompetitors:\n" = true ∧
      Contains (reportBuilder "example.com" "1.2M" fixturePage).String
        "No competitors found" = false :=
  ⟨⟨((report_no_competitors "example.com" "1.2M" noCardsPage rfl).2.1 rfl).1,
    ((report_no_competitors "example.com" "1.2M" noCardsPage rfl).2.1 rfl).2.1,
    ((report_no_competitors "example.com" "1.2M" noCardsPage rfl).2.1 rfl).2.2
      (by decide) (by decide)⟩,
   ((report_no_competitors "example.com" "1.2M" fixturePage rfl).2.2
      (by decide)).1,
   ((report_no_competitors "example.com" "1.2M" fixturePage rfl).2.2
      (by decide)).2 (by decide) (by decide)⟩

/-! ## Placeholder lines -/

theorem LinesInOrder_append_left (xs : List String) (p s : String)
    (hp : AtLineStart p) (h : LinesInOrder xs s) : LinesInOrder xs (p ++ s) := by
  cases xs with
  | nil => trivial
  | cons x xs =>
    obtain ⟨a, b, e, ha, hb⟩ := h
    refine ⟨p ++ a, b, by rw [e]; simp only [String.append_assoc], ?_, hb⟩
    rcases ha with rfl | ha
    · rw [String.append_empty]; exact hp
    · right
      rw [HasSuffix_iff] at ha ⊢
      rw [String.data_append]
      exact ha.trans (List.suffix_append _ _)

theorem lines_of_writes (ws : List String) (tail : String)
    (h : ∀ w ∈ ws, HasSuffix w "\n" = true) :
    LinesInOrder (ws.map placeholderOf).flatten (concat ws ++ tail) := by
  induction ws with
  | nil => trivial
  | cons w ws ih =>
    have ih := ih (fun v hv => h v (List.mem_cons_of_mem _ hv))
    have hw := h w (List.mem_cons_self _ _)
    rw [List.map_cons, List.flatten_cons]
    have e : concat (w :: ws) ++ tail = w ++ (concat ws ++ tail) := by
      simp only [concat, String.append_assoc]
    rw [e]
    unfold placeholderOf
    split_ifs with h1 h2 h3
    · refine ⟨"", concat ws ++ tail, ?_, Or.inl rfl, ih⟩
      rw [h1]; rfl
    · refine ⟨"", concat ws ++ tail, ?_, Or.inl rfl, ih⟩
      rw [h2]; rfl
    · refine ⟨"", concat ws ++ tail, ?_, Or.inl rfl, ih⟩
      rw [h3]; rfl
    · exact LinesInOrder_append_left _ _ _ (Or.inr hw) ih

theorem placeholderOf_cardWrites (div : Card) :
    ((cardWrites div).map placeholderOf).flatten = div.placeholders := by
  rcases div with ⟨_ | title, _ | descr, _ | traff⟩ <;>
    simp [cardWrites_none, cardWrites_some, placeholderOf, Card.placeholders,
      String.ext_iff]

theorem placeholderOf_cards (divs : List Card) :
    (((divs.map cardWrites).flatten).map placeholderOf).flatten =
      (divs.map Card.placeholders).flatten := by
  induction divs with
  | nil => rfl
  | cons div rest ih =>
    rw [List.map_cons, List.flatten_cons, List.map_append, List.flatten_append,
      ih, placeholderOf_cardWrites, List.map_cons, List.flatten_cons]

theorem placeholderOf_written (website visitors : String) (doc : Page) :
    ((reportBuilder website visitors doc).written.map placeholderOf).flatten =
      doc.placeholders := by
  rw [reportBuilder_written, List.map_append, List.flatten_append]
  have htail : ((match doc.divs with
      | [] => ["\nNo competitors found"]
      | div :: rest =>
        "\nCompetitors:\n" :: ((div :: rest).map cardWrites).flatten).map
        placeholderOf).flatten = (doc.divs.map Card.placeholders).flatten := by
    rcases hd : doc.divs with _ | ⟨div, rest⟩
    · rfl
    · rw [List.map_cons, List.flatten_cons, placeholderOf_cards]
      rfl
  rw [htail, Page.placeholders]
  congr 1
  cases doc.description <;> simp [placeholderOf, String.ext_iff]

theorem placeholder_lines (website visitors : String) (doc : Page) :
    LinesInOrder doc.placeholders (reportBuilder website visitors doc).String := by
  rw [← placeholderOf_written website visitors doc]
  rcases hd : doc.divs with _ | ⟨div, rest⟩
  · have hw := reportBuilder_written website visitors doc
    rw [hd] at hw
    rw [Builder.String, hw, concat_append, List.map_append, List.flatten_append]
    have h3 := lines_of_writes
      ["Website: " ++ website ++ "\n", "Number of Visitors: " ++ visitors ++ "\n",
        match doc.description with
        | some description => "Description: " ++ description ++ "\n"
        | none => "Description not found\n"] (concat ["\nNo competitors found"])
      (fun w hmem => by
        simp only [List.mem_cons, List.mem_singleton, List.not_mem_nil,
          or_false] at hmem
        rcases hmem with rfl | rfl | rfl
        · rw [HasSuffix_iff, String.data_append]; exact List.suffix_append _ _
        · rw [HasSuffix_iff, String.data_append]; exact List.suffix_append _ _
        · cases doc.description with
          | none => decide
          | some d =>
            rw [HasSuffix_iff, String.data_append]; exact List.suffix_append _ _)
    simpa [placeholderOf] using h3
  · have hne : doc.divs ≠ [] := by rw [hd]; simp
    have h := lines_of_writes (reportBuilder website visitors doc).written ""
      (fun w hmem => by
        rcases written_whole_lines website visitors doc w hmem with h | h
        · exact h
        · rw [h] at hmem
          exact absurd hmem (no_competitors_not_written website visitors doc hne))
    rw [String.append_empty] at h
    exact h

/-- C9 (amended): with the visitor element found, whichever optional fields
are missing, `fetchWebsiteInfo` returns a report that is not empty, begins
"Website: <website>\nNumber of Visitors: <count>\n" and is none of the three
failure strings.  The placeholders owed to the page - "Description not found"
for a missing page description, "Title not found" for a card without a title,
"Description not found" and "Traffic not found" for a missing description or
traffic of a card that has a title - are lines of the report, one after the
other in document order.  A card without a title gets its "Title not found"
line and nothing else: when the page description and the description of every
card with a title are present, the report contains "Description not found"
only if the website or a scraped text does, and likewise for
"Traffic not found".  The report is the concatenation of writes each made of
whole lines (only a closing "\nNo competitors found" has no newline at its
end), and each placeholder is written exactly once per missing field. -/
theorem report_placeholders (website visitors : String) (doc : Page)
    (hv : doc.maintraff = some visitors) :
    fetchWebsiteInfo website (scrape doc) =
        .returned (reportBuilder website visitors doc).String ∧
      (reportBuilder website visitors doc).String ≠ "" ∧
      (∃ rest, (reportBuilder website visitors doc).String =
        "Website: " ++ website ++ "\nNumber of Visitors: " ++ visitors ++ "\n" ++
          rest) ∧
      (reportBuilder website visitors doc).String ≠
        "An error occurred while processing your request." ∧
      (reportBuilder website visitors doc).String ≠
        "403 Forbidden: Access is denied." ∧
      (reportBuilder website visitors doc).String ≠
        "Could not find number of visitors." ∧
      LinesInOrder doc.placeholders (reportBuilder website visitors doc).String ∧
      (doc.description.isSome = true →
        (∀ div ∈ doc.divs, div.title.isSome = true → div.descr.isSome = true) →
        Contains website "Description not found" = false →
        (∀ t ∈ doc.scraped, Contains t "Description not found" = false) →
        Contains (reportBuilder website visitors doc).String
          "Description not found" = false) ∧
      ((∀ div ∈ doc.divs, div.title.isSome = true → div.traff.isSome = true) →
        Contains website "Traffic not found" = false →
        (∀ t ∈ doc.scraped, Contains t "Traffic not found" = false) →
        Contains (reportBuilder website visitors doc).String
          "Traffic not found" = false) ∧
      (reportBuilder website visitors doc).String =
        concat (reportBuilder website visitors doc).written ∧
      (∀ w ∈ (reportBuilder website visitors doc).written,
        HasSuffix w "\n" = true ∨ w = "\nNo competitors found") ∧
      (reportBuilder website visitors doc).written.count "Description not found\n" =
        (if doc.description.isNone then 1 else 0) +
          doc.divs.countP (fun div => div.title.isSome && div.descr.isNone) ∧
      (reportBuilder website visitors doc).written.count "Title not found\n" =
        doc.divs.countP (fun div => div.title.isNone) ∧
      (reportBuilder website visitors doc).written.count "Traffic not found\n" =
        doc.divs.countP (fun div => div.title.isSome && div.traff.isNone) ∧
      ∀ div ∈ doc.divs, div.title = none → cardWrites div = ["Title not found\n"] := by
  refine ⟨fetchWebsiteInfo_scrape website visitors doc hv,
    report_ne_of_head _ _ _ _ (by decide), report_eq_header _ _ _,
    report_ne_of_head _ _ _ _ (by decide), report_ne_of_head _ _ _ _ (by decide),
    report_ne_of_head _ _ _ _ (by decide), placeholder_lines _ _ _, ?_, ?_, rfl,
    written_whole_lines _ _ _, ?_, ?_, ?_, ?_⟩
  · intro hdesc hcards hweb hs
    rw [Contains_eq_false_iff]
    refine report_freeOf _ (by decide) website visitors doc hv
      (fun lit hl => safe_description_not_found lit (by
        simp only [List.mem_cons, List.mem_singleton, List.not_mem_nil,
          or_false] at hl ⊢
        tauto))
      (fun h => by rw [h] at hdesc; cases hdesc)
      (fun _ => safe_description_not_found _ (by simp))
      (fun _ => safe_description_not_found _ (by simp))
      (fun _ _ _ => safe_description_not_found _ (by simp))
      (fun div hdiv ht hn => by
        have := hcards div hdiv ht
        rw [hn] at this; cases this)
      (fun _ _ _ _ => safe_description_not_found _ (by simp))
      ((Contains_eq_false_iff _ _).mp hweb)
      (fun t ht => (Contains_eq_false_iff _ _).mp (hs t ht))
  · intro hcards hweb hs
    rw [Contains_eq_false_iff]
    refine report_freeOf _ (by decide) website visitors doc hv
      (fun lit hl => safe_traffic_not_found lit (by
        simp only [List.mem_cons, List.mem_singleton, List.not_mem_nil,
          or_false] at hl ⊢
        tauto))
      (fun _ => safe_traffic_not_found _ (by simp))
      (fun _ => safe_traffic_not_found _ (by simp))
      (fun _ => safe_traffic_not_found _ (by simp))
      (fun _ _ _ => safe_traffic_not_found _ (by simp))
      (fun _ _ _ _ => safe_traffic_not_found _ (by simp))
      (fun div hdiv ht hn => by
        have := hcards div hdiv ht
        rw [hn] at this; cases this)
      ((Contains_eq_false_iff _ _).mp hweb)
      (fun t ht => (Contains_eq_false_iff _ _).mp (hs t ht))
  · rw [count_written _ _ _ _ (by simp [String.ext_iff]) (by simp [String.ext_iff])
        (by decide) (by decide),
      sum_indicator_eq_countP _ _ _ count_description_not_found]
    cases doc.description <;> simp [List.count_cons, String.ext_iff]
  · rw [count_written _ _ _ _ (by simp [String.ext_iff]) (by simp [String.ext_iff])
        (by decide) (by decide),
      sum_indicator_eq_countP _ _ _ count_title_not_found]
    cases doc.description <;> simp [List.count_cons, String.ext_iff]
  · rw [count_written _ _ _ _ (by simp [String.ext_iff]) (by simp [String.ext_iff])
        (by decide) (by decide),
      sum_indicator_eq_countP _ _ _ count_traffic_not_found]
    cases doc.description <;> simp [List.count_cons, String.ext_iff]
  · rintro ⟨title, descr, traff⟩ _ ht
    simp only at ht
    rw [ht, cardWrites_none]

theorem report_placeholders_witness :
    fetchWebsiteInfo "example.com" (scrape sparsePage) =
        .returned (reportBuilder "example.com" "1.2M" sparsePage).String ∧
      LinesInOrder
        ["Description not found", "Title not found", "Description not found",
          "Traffic not found"]
        (reportBuilder "example.com" "1.2M" sparsePage).String ∧
      (reportBuilder "example.com" "1.2M" sparsePage).written.count
        "Title not found\n" = 1 ∧
      Contains (reportBuilder "example.com" "1.2M" untitledCardPage).String
        "Description not found" = false ∧
      Contains (reportBuilder "example.com" "1.2M" untitledCardPage).String
        "Traffic not found" = false := by
  obtain ⟨hf, _, _, _, _, _, hl, _, _, _, _, _, hc, _, _⟩ :=
    report_placeholders "example.com" "1.2M" sparsePage rfl
  obtain ⟨_, _, _, _, _, _, _, hd, ht, _⟩ :=
    report_placeholders "example.com" "1.2M" untitledCardPage rfl
  exact ⟨hf, hl, hc, hd rfl (by decide) (by decide) (by decide),
    ht (by decide) (by decide) (by decide)⟩

end Bot
